import Mathlib

/-!
Verification of the asynchronous task-relay subsystem of the upload-docs
repository: the producer (`src/backend/src/prompt_agent/routes.ts`, the
POST /submit handler and `connectToRabbitMQ`) and the consumer
(`src/backend/src/prompt_agent/worker.ts`, `startWorker` and its consume
callback).  The TypeScript is shallowly embedded: each handler becomes a
pure Lean function from its inputs and the responses of external
collaborators (the AMQP channel, `JSON.parse`, the prompt service) to a
trace of the observable effects it performs (publish calls, ack/nack
calls, connection attempts) together with the HTTP status it returns.
-/

namespace UploadDocs

/-- Fixed queue name, `QUEUE_NAME` in both routes.ts and worker.ts. -/
def QUEUE_NAME : String := "prompt_tasks_queue"

/-- Reconnect delay constant shared by both roles (5000 ms). -/
def RECONNECT_DELAY_MS : Nat := 5000

/-- The wire shape shared by `PromptRequestPayload` (routes.ts) and
`PromptMessage` (worker.ts): four optional scalar fields.  `none`
models a JavaScript `undefined` field. -/
structure PromptMessage where
  promptText : Option String
  requestedModel : Option String
  enhance : Option Bool
  promptId : Option String
deriving Repr, DecidableEq

/-- JavaScript truthiness of an optional string: `undefined` and the
empty string are falsy, every other string is truthy.  This is the test
performed by `!promptText`, `!promptId` in both routes.ts line 90 and
worker.ts line 87. -/
def strTruthy : Option String → Bool
  | none => false
  | some s => !s.isEmpty

/-- The invariant checked by both roles: `promptText` or `promptId`
must be (JS-)truthy.  Producer: routes.ts line 90; consumer: worker.ts
line 87 (both written as `!promptText && !promptId` for the violation). -/
def hasBodyOrRef (p : PromptMessage) : Bool :=
  strTruthy p.promptText || strTruthy p.promptId

/-- Lower-case hex digit, used for JSON control-character escapes. -/
def hexDigit (n : Nat) : Char :=
  if n < 10 then Char.ofNat (48 + n) else Char.ofNat (87 + n)

/-- Escape of a single character inside a JSON string literal, as
`JSON.stringify` produces it: quote and backslash are backslash-escaped,
the common control characters use their short forms, remaining control
characters use a `\u00XX` escape, everything else is passed through. -/
def jsonEscapeChar (c : Char) : String :=
  if c = '"' then "\\\""
  else if c = '\\' then "\\\\"
  else if c = '\n' then "\\n"
  else if c = '\t' then "\\t"
  else if c = '\r' then "\\r"
  else if c = Char.ofNat 8 then "\\b"
  else if c = Char.ofNat 12 then "\\f"
  else if c.toNat < 32 then
    String.mk ['\\', 'u', '0', '0', hexDigit (c.toNat / 16), hexDigit (c.toNat % 16)]
  else String.singleton c

/-- JSON string literal for `s`, with `JSON.stringify` escaping. -/
def jsonStr (s : String) : String :=
  "\"" ++ String.join (s.toList.map jsonEscapeChar) ++ "\""

/-- JSON boolean literal. -/
def jsonBool (b : Bool) : String := if b then "true" else "false"

/-- Model of `JSON.stringify(message)` for the object literal built at
routes.ts lines 105-110: fields appear in declaration order
(`promptText`, `requestedModel`, `enhance`, `promptId`) and fields whose
value is `undefined` are omitted, as `JSON.stringify` does. -/
def encodeMessage (p : PromptMessage) : String :=
  let fields : List String :=
    (match p.promptText with
      | some s => [jsonStr "promptText" ++ ":" ++ jsonStr s]
      | none => []) ++
    (match p.requestedModel with
      | some s => [jsonStr "requestedModel" ++ ":" ++ jsonStr s]
      | none => []) ++
    (match p.enhance with
      | some b => [jsonStr "enhance" ++ ":" ++ jsonBool b]
      | none => []) ++
    (match p.promptId with
      | some s => [jsonStr "promptId" ++ ":" ++ jsonStr s]
      | none => [])
  "\x7b" ++ String.intercalate "," fields ++ "\x7d"

/-- One `sendToQueue` invocation, with the arguments the producer passes:
queue name, serialized content, and the `persistent` option. -/
structure PublishCall where
  queue : String
  content : String
  persistent : Bool
deriving Repr, DecidableEq

/-- The producer module state read by the /submit handler: whether
`rabbitChannel` is non-null, and the `rabbitConnection` handle, where
`none` models a null handle and `some healthy` a non-null handle whose
`.connection` property is non-null exactly when `healthy` is true
(routes.ts line 95 checks `rabbitConnection.connection === null`). -/
structure ProducerConn where
  rabbitChannel : Bool
  rabbitConnection : Option Bool
deriving Repr, DecidableEq

/-- Responses of the AMQP channel during the publish section of the
/submit handler: whether `assertQueue` resolves, and whether
`sendToQueue` throws (`Except.error`) or returns its boolean
backpressure result (`Except.ok b`, `b` false meaning the local write
buffer is full, routes.ts lines 114-124). -/
structure PublishEnv where
  assertOk : Bool
  sendOutcome : Except Unit Bool
deriving Repr

/-- Observable result of one call to the POST /submit handler: the HTTP
status returned, the number of `assertQueue` calls made, the list of
`sendToQueue` calls made (recorded even if the call throws), and the
number of un-awaited `connectToRabbitMQ()` attempts triggered. -/
structure SubmitResult where
  status : Nat
  asserts : Nat
  publishes : List PublishCall
  connectAttempts : Nat
deriving Repr, DecidableEq

/-- Shallow embedding of the POST /submit handler body, routes.ts lines
85-129.  Control flow, in source order: the truthiness validation
(line 90, status 400); the channel/connection availability check
(line 95, status 503, with the guarded fire-and-forget reconnect of
lines 99-101); then `assertQueue` and `sendToQueue` inside `try`
(lines 112-124: status 202 on `true`, 503 on `false`), with the `catch`
returning status 500 (line 128). -/
def submit (st : ProducerConn) (env : PublishEnv) (p : PromptMessage) : SubmitResult :=
  if !strTruthy p.promptText && !strTruthy p.promptId then
    { status := 400, asserts := 0, publishes := [], connectAttempts := 0 }
  else if !st.rabbitChannel || st.rabbitConnection = none
      || st.rabbitConnection = some false then
    let attempts :=
      if st.rabbitConnection = none || st.rabbitConnection = some false then 1 else 0
    { status := 503, asserts := 0, publishes := [], connectAttempts := attempts }
  else
    if env.assertOk then
      let call : PublishCall :=
        { queue := QUEUE_NAME, content := encodeMessage p, persistent := true }
      match env.sendOutcome with
      | .ok true =>
        { status := 202, asserts := 1, publishes := [call], connectAttempts := 0 }
      | .ok false =>
        { status := 503, asserts := 1, publishes := [call], connectAttempts := 0 }
      | .error _ =>
        { status := 500, asserts := 1, publishes := [call], connectAttempts := 0 }
    else
      { status := 500, asserts := 1, publishes := [], connectAttempts := 0 }

/-- One `nack` invocation with the arguments the worker passes after the
message itself: `allUpTo` and `requeue` (worker.ts calls
`nack(msg, false, false)` at lines 89 and 110). -/
structure NackCall where
  allUpTo : Bool
  requeue : Bool
deriving Repr, DecidableEq

/-- Observable effects of one invocation of the worker's consume
callback (worker.ts lines 79-118): the `processPrompt` dispatches made
(each recording the message fields passed), the number of `ack` calls,
and the `nack` calls. -/
structure ConsumeTrace where
  processCalls : List PromptMessage
  acks : Nat
  nacks : List NackCall
deriving Repr, DecidableEq

/-- Shallow embedding of the consume callback, worker.ts lines 79-118.
Inputs model the external collaborators the callback consults:
`msgPresent` is whether `msg !== null` (line 80); `parsed` is the result
of `JSON.parse` on the body, `none` meaning the parse threw (the throw
lands in the `catch` at line 103, which nacks); `processOutcome` is how
the `defaultPromptService.processPrompt` promise settles (`Except.error`
meaning it rejects, which also lands in the `catch`); `channelAtSettle`
is whether the mutable `channel` variable is non-null at the single
settlement point the execution reaches — every `ack`/`nack` is written
with optional chaining (`channel?.ack(msg)`, `channel?.nack(...)`), so a
null channel silently skips the call. -/
def handleMessage (msgPresent : Bool) (parsed : Option PromptMessage)
    (processOutcome : Except Unit String) (channelAtSettle : Bool) : ConsumeTrace :=
  if !msgPresent then { processCalls := [], acks := 0, nacks := [] }
  else
    match parsed with
    | none =>
      { processCalls := [], acks := 0,
        nacks := if channelAtSettle then [{ allUpTo := false, requeue := false }] else [] }
    | some p =>
      if !strTruthy p.promptText && !strTruthy p.promptId then
        { processCalls := [], acks := 0,
          nacks := if channelAtSettle then [{ allUpTo := false, requeue := false }] else [] }
      else
        match processOutcome with
        | .ok _ =>
          { processCalls := [p],
            acks := if channelAtSettle then 1 else 0, nacks := [] }
        | .error _ =>
          { processCalls := [p], acks := 0,
            nacks := if channelAtSettle then [{ allUpTo := false, requeue := false }] else [] }

/-- Cached connection and channel handles of one relay role: `true`
means the handle is non-null. -/
structure ConnHandles where
  conn : Bool
  chan : Bool
deriving Repr, DecidableEq

/-- Effect of one lifecycle event handler: the handles it leaves behind
and whether it schedules a reconnect timer (`setTimeout(connect...,
RECONNECT_DELAY_MS)`). -/
structure HandlerResult where
  handles : ConnHandles
  retryScheduled : Bool
deriving Repr, DecidableEq

/-- Producer connection `error` handler, routes.ts lines 36-41: nulls
both `rabbitChannel` and `rabbitConnection`, schedules nothing. -/
def producerOnConnError (_ : ConnHandles) : HandlerResult :=
  { handles := { conn := false, chan := false }, retryScheduled := false }

/-- Producer connection `close` handler, routes.ts lines 43-50: nulls
both handles and schedules one reconnect after the fixed delay. -/
def producerOnConnClose (_ : ConnHandles) : HandlerResult :=
  { handles := { conn := false, chan := false }, retryScheduled := true }

/-- Worker connection `error` handler, worker.ts lines 47-50: it only
logs — the handles are left untouched and no retry is scheduled (the
comment defers recovery to the paired `close` event). -/
def workerOnConnError (h : ConnHandles) : HandlerResult :=
  { handles := h, retryScheduled := false }

/-- Worker connection `close` handler, worker.ts lines 52-57: nulls
both handles and schedules one reconnect after the fixed delay. -/
def workerOnConnClose (_ : ConnHandles) : HandlerResult :=
  { handles := { conn := false, chan := false }, retryScheduled := true }

/-- Worker channel `close` handler, worker.ts lines 67-72: nulls only
the channel handle; full recovery is left to the connection close. -/
def workerOnChanClose (h : ConnHandles) : HandlerResult :=
  { handles := { conn := h.conn, chan := false }, retryScheduled := false }

/-- Observable outcome of the worker process startup: whether the
connect-and-consume loop is entered (and hence a subscription will be
attempted), whether a warning is logged instead, and whether
`process.exit` is invoked. -/
structure WorkerStartResult where
  loopEntered : Bool
  warned : Bool
  exited : Bool
deriving Repr, DecidableEq

/-- Shallow embedding of `startWorker`'s startup guard, worker.ts lines
24-35: if `defaultOpenAiLlmProvider` is unavailable (or, for safety,
`defaultPromptService` is), it logs a warning and returns before any
connection or subscription; otherwise it proceeds into
`connectAndConsume`. -/
def startWorkerGuard (providerAvailable serviceAvailable : Bool) : WorkerStartResult :=
  if !providerAvailable then { loopEntered := false, warned := true, exited := false }
  else if !serviceAvailable then { loopEntered := false, warned := true, exited := false }
  else { loopEntered := true, warned := false, exited := false }

/-- Shallow embedding of the module-level startup guard, worker.ts lines
138-151: `startWorker` is invoked only when both the provider and the
service are available; otherwise a warning is logged and nothing else
happens (`process.exit(1)` sits only in the `.catch` of a started
worker). -/
def moduleStartup (providerAvailable serviceAvailable : Bool) : WorkerStartResult :=
  if providerAvailable && serviceAvailable then
    startWorkerGuard providerAvailable serviceAvailable
  else { loopEntered := false, warned := true, exited := false }

/-- Event-loop state of the producer process around `connectToRabbitMQ`
(routes.ts): the cached `rabbitConnection` handle (`none` = null,
`some healthy` as in `ProducerConn`), the cached `rabbitChannel` handle,
the number of `connectToRabbitMQ` invocations currently in flight
(started, `amqp.connect` not yet settled), and the number of pending
`setTimeout(connectToRabbitMQ, RECONNECT_DELAY_MS)` timers. -/
structure ProdSys where
  conn : Option Bool
  chan : Bool
  inflight : Nat
  pendingTimers : Nat
deriving Repr, DecidableEq

/-- Channel-unavailability condition of the /submit handler, routes.ts
line 95: `!rabbitChannel || !rabbitConnection ||
rabbitConnection.connection === null`. -/
def chanUnusable (s : ProdSys) : Prop :=
  s.chan = false ∨ s.conn = none ∨ s.conn = some false

/-- One event-loop step of the producer process.  Each constructor is
one atomic piece of routes.ts as the single-threaded event loop runs it:
a pending reconnect timer firing (starting an attempt); the /submit
handler's fire-and-forget nudge (lines 95-103: it starts an attempt when
the channel is unusable and the guard `!rabbitConnection ||
rabbitConnection.connection === null` passes — the guard reads only the
cached handle, which an in-flight attempt has not yet written); an
in-flight attempt resolving (handles set, lines 33-57) or throwing (the
`catch` at lines 59-65 clears handles and schedules one timer); and the
connection-level `error` (clears handles) and `close` (clears handles,
schedules one timer) events. -/
inductive ProdStep : ProdSys → ProdSys → Prop
  | timerFire (s : ProdSys) (h : 0 < s.pendingTimers) :
      ProdStep s { s with inflight := s.inflight + 1,
                          pendingTimers := s.pendingTimers - 1 }
  | submitNudge (s : ProdSys) (hch : chanUnusable s)
      (hguard : s.conn = none ∨ s.conn = some false) :
      ProdStep s { s with inflight := s.inflight + 1 }
  | attemptResolve (s : ProdSys) (h : 0 < s.inflight) :
      ProdStep s { conn := some true, chan := true,
                   inflight := s.inflight - 1, pendingTimers := s.pendingTimers }
  | attemptThrow (s : ProdSys) (h : 0 < s.inflight) :
      ProdStep s { conn := none, chan := false,
                   inflight := s.inflight - 1, pendingTimers := s.pendingTimers + 1 }
  | connErrorEvt (s : ProdSys) (b : Bool) (h : s.conn = some b) :
      ProdStep s { s with conn := none, chan := false }
  | connCloseEvt (s : ProdSys) (b : Bool) (h : s.conn = some b) :
      ProdStep s { conn := none, chan := false,
                   inflight := s.inflight, pendingTimers := s.pendingTimers + 1 }

/-- Reflexive-transitive closure of `ProdStep`: the states the producer
process can reach. -/
inductive ProdReach : ProdSys → ProdSys → Prop
  | refl (s : ProdSys) : ProdReach s s
  | tail (s t u : ProdSys) (h : ProdReach s t) (hstep : ProdStep t u) : ProdReach s u

/-- Producer state right after `initializePromptRoutes` finished
awaiting the initial `connectToRabbitMQ` call and that call failed: both
handles null, no attempt in flight, one retry timer scheduled by the
`catch` (routes.ts lines 59-65).  Only from this point on is the
/submit route mounted, so this is the earliest state in which the
submit nudge can occur. -/
def prodInitAfterFailedConnect : ProdSys :=
  { conn := none, chan := false, inflight := 0, pendingTimers := 1 }

/-! Theorems settling the claims. -/

/-- C6: a submission in which both the body and the reference id are
absent is rejected with status 400 and causes no queue interaction at
all — no assert, no publish, no connection attempt. -/
theorem rejected_no_queue_interaction (st : ProducerConn) (env : PublishEnv)
    (p : PromptMessage) (h : hasBodyOrRef p = false) :
    submit st env p =
      { status := 400, asserts := 0, publishes := [], connectAttempts := 0 } := by
  unfold submit
  unfold hasBodyOrRef at h
  simp only [Bool.or_eq_false_iff] at h
  simp [h.1, h.2]

/-- Witness for C6 at the all-absent payload. -/
theorem rejected_no_queue_interaction_witness :
    hasBodyOrRef
        { promptText := none, requestedModel := none, enhance := none, promptId := none }
      = false ∧
    submit { rabbitChannel := true, rabbitConnection := some true }
        { assertOk := true, sendOutcome := .ok true }
        { promptText := none, requestedModel := none, enhance := none, promptId := none } =
      { status := 400, asserts := 0, publishes := [], connectAttempts := 0 } :=
  ⟨by decide, rejected_no_queue_interaction _ _ _ (by decide)⟩

/-- C9: when the required LLM provider is unavailable at startup, the
module-level guard logs a warning and never calls `startWorker`, and the
in-function guard would likewise log and return before the message loop;
in neither place is the process exited. -/
theorem worker_declines_without_provider (serviceAvailable : Bool) :
    moduleStartup false serviceAvailable =
      { loopEntered := false, warned := true, exited := false } ∧
    startWorkerGuard false serviceAvailable =
      { loopEntered := false, warned := true, exited := false } :=
  ⟨rfl, rfl⟩

/-- C10: when the cached channel handle is null at the settlement point,
the optional-chained `ack`/`nack` call is silently skipped, so the
message is neither acknowledged nor discarded, whatever the decode and
processing outcomes were. -/
theorem settlement_skipped_when_channel_null (msgPresent : Bool)
    (parsed : Option PromptMessage) (po : Except Unit String) :
    (handleMessage msgPresent parsed po false).acks = 0 ∧
    (handleMessage msgPresent parsed po false).nacks = [] := by
  cases msgPresent <;> cases parsed <;> cases po <;>
    simp [handleMessage] <;> split <;> simp

/-- C5 counterexample: the worker's connection `error` handler does not
clear the cached handles — starting from both handles non-null it leaves
them non-null, refuting the claim that in both roles the error event
clears the cached connection and channel handles. -/
theorem worker_error_keeps_handles :
    (workerOnConnError { conn := true, chan := true }).handles ≠
      { conn := false, chan := false } := by decide

/-- C5 amended: the producer's connection `error` handler clears both
cached handles and schedules no retry; the worker's connection `error`
handler only logs — it leaves the handles unchanged (the paired `close`
event clears them) — and likewise schedules no retry.  Neither handler
immediately retries. -/
theorem conn_error_handler_behavior (h : ConnHandles) :
    producerOnConnError h =
      { handles := { conn := false, chan := false }, retryScheduled := false } ∧
    workerOnConnError h = { handles := h, retryScheduled := false } :=
  ⟨rfl, rfl⟩

/-- C8 counterexample: when the channel is usable but `assertQueue`
throws, the /submit handler returns status 500, an internal-fault
outcome that is none of accepted (202), rejected (400), or
unavailable (503). -/
theorem submit_internal_fault_outcome :
    (submit { rabbitChannel := true, rabbitConnection := some true }
        { assertOk := false, sendOutcome := .ok true }
        { promptText := some "hello", requestedModel := none, enhance := none,
          promptId := none }).status = 500 ∧
    (submit { rabbitChannel := true, rabbitConnection := some true }
        { assertOk := false, sendOutcome := .ok true }
        { promptText := some "hello", requestedModel := none, enhance := none,
          promptId := none }).status ≠ 202 ∧
    (submit { rabbitChannel := true, rabbitConnection := some true }
        { assertOk := false, sendOutcome := .ok true }
        { promptText := some "hello", requestedModel := none, enhance := none,
          promptId := none }).status ≠ 400 ∧
    (submit { rabbitChannel := true, rabbitConnection := some true }
        { assertOk := false, sendOutcome := .ok true }
        { promptText := some "hello", requestedModel := none, enhance := none,
          promptId := none }).status ≠ 503 := by decide

/-- C8 amended: every call to /submit returns exactly one of four
outcomes — accepted (202), rejected (400), unavailable (503), or
internal fault (500) — with no partial states and no other outcome. -/
theorem submit_four_outcomes (st : ProducerConn) (env : PublishEnv) (p : PromptMessage) :
    (submit st env p).status = 202 ∨ (submit st env p).status = 400 ∨
    (submit st env p).status = 503 ∨ (submit st env p).status = 500 := by
  unfold submit
  split
  · simp
  · split
    · simp
    · split
      · cases h : env.sendOutcome with
        | ok b => cases b <;> simp
        | error e => simp
      · simp

/-- C4 counterexample: with a valid payload, a null channel handle but a
cached healthy connection handle (the state during the window between
`amqp.connect` resolving and `createChannel` resolving), /submit returns
unavailable (503) yet triggers zero connection attempts — refuting
"triggers exactly one additional connection attempt ... regardless of
the cached connection handle's state". -/
theorem unavailable_without_nudge :
    submit { rabbitChannel := false, rabbitConnection := some true }
        { assertOk := true, sendOutcome := .ok true }
        { promptText := some "hello", requestedModel := none, enhance := none,
          promptId := none } =
      { status := 503, asserts := 0, publishes := [], connectAttempts := 0 } := by
  decide

/-- C4 amended: for a payload satisfying the body-or-reference-id
constraint, whenever no usable channel is available /submit returns
unavailable (503) with no assert and no publish, and it triggers exactly
one un-awaited connection attempt precisely when the cached connection
handle is null or its underlying connection is null — when a healthy
connection handle is still cached (channel merely absent), no attempt is
triggered. -/
theorem unavailable_outcome (st : ProducerConn) (env : PublishEnv) (p : PromptMessage)
    (hv : hasBodyOrRef p = true)
    (hun : st.rabbitChannel = false ∨ st.rabbitConnection = none
      ∨ st.rabbitConnection = some false) :
    (submit st env p).status = 503 ∧ (submit st env p).asserts = 0 ∧
    (submit st env p).publishes = [] ∧
    (submit st env p).connectAttempts =
      (if st.rabbitConnection = none || st.rabbitConnection = some false
        then 1 else 0) := by
  unfold submit
  unfold hasBodyOrRef at hv
  simp only [Bool.or_eq_true] at hv
  rcases hv with h | h <;>
    rcases hun with h2 | h2 | h2 <;>
      simp [h, h2]

/-- Witness for C4 at a state with both handles null: the nudge fires
and exactly one connection attempt is triggered. -/
theorem unavailable_outcome_witness :
    hasBodyOrRef
        { promptText := some "hello", requestedModel := none, enhance := none,
          promptId := none }
      = true ∧
    (submit { rabbitChannel := false, rabbitConnection := none }
        { assertOk := true, sendOutcome := .ok true }
        { promptText := some "hello", requestedModel := none, enhance := none,
          promptId := none }).connectAttempts = 1 :=
  ⟨by decide,
    by simpa using
      (unavailable_outcome _ _ _ (by decide) (Or.inl rfl)).2.2.2⟩

/-- C2 counterexample: with a body-only payload and a usable channel,
when the queue re-assertion throws, the handler makes zero publish calls
(and returns 500) — refuting "performs the queue re-assertion followed
by exactly one publish call". -/
theorem assert_throw_no_publish :
    (submit { rabbitChannel := true, rabbitConnection := some true }
        { assertOk := false, sendOutcome := .ok true }
        { promptText := some "hello", requestedModel := none, enhance := none,
          promptId := none }).publishes = [] ∧
    (submit { rabbitChannel := true, rabbitConnection := some true }
        { assertOk := false, sendOutcome := .ok true }
        { promptText := some "hello", requestedModel := none, enhance := none,
          promptId := none }).asserts = 1 := by
  constructor <;> rfl

/-- C2 amended: for a submission with a (truthy) body and no (truthy)
reference id, when a usable channel is available and the queue
re-assertion resolves, /submit makes the assert call and exactly one
publish call, whose payload is the JSON encoding of the input fields and
which is marked persistent; if the publish is accepted by the local
buffer the handler returns accepted (202), and if it is rejected by
local buffer saturation it returns unavailable (503). -/
theorem submit_publishes_once (st : ProducerConn) (env : PublishEnv) (p : PromptMessage)
    (hb : strTruthy p.promptText = true) (hr : strTruthy p.promptId = false)
    (hch : st.rabbitChannel = true) (hconn : st.rabbitConnection = some true)
    (ha : env.assertOk = true) :
    (submit st env p).asserts = 1 ∧
    (submit st env p).publishes =
      [{ queue := QUEUE_NAME, content := encodeMessage p, persistent := true }] ∧
    (env.sendOutcome = .ok true → (submit st env p).status = 202) ∧
    (env.sendOutcome = .ok false → (submit st env p).status = 503) := by
  cases hs : env.sendOutcome with
  | ok b => cases b <;> simp [submit, hb, hr, hch, hconn, ha, hs]
  | error e => simp [submit, hb, hr, hch, hconn, ha, hs]

/-- Witness for C2 at a concrete body-only payload with an accepting
buffer: the publish carries the expected JSON and the handler returns
202. -/
theorem submit_publishes_once_witness :
    strTruthy (some "hi") = true ∧
    (submit { rabbitChannel := true, rabbitConnection := some true }
        { assertOk := true, sendOutcome := .ok true }
        { promptText := some "hi", requestedModel := none, enhance := none,
          promptId := none }).publishes =
      [{ queue := "prompt_tasks_queue",
         content := "\x7b\"promptText\":\"hi\"\x7d", persistent := true }] ∧
    (submit { rabbitChannel := true, rabbitConnection := some true }
        { assertOk := true, sendOutcome := .ok true }
        { promptText := some "hi", requestedModel := none, enhance := none,
          promptId := none }).status = 202 := by
  refine ⟨by decide, ?_, ?_⟩
  · have h :=
      (submit_publishes_once
        { rabbitChannel := true, rabbitConnection := some true }
        { assertOk := true, sendOutcome := .ok true }
        { promptText := some "hi", requestedModel := none, enhance := none,
          promptId := none }
        (by decide) (by decide) rfl rfl rfl).2.1
    rw [h]
    rfl
  · exact
      (submit_publishes_once
        { rabbitChannel := true, rabbitConnection := some true }
        { assertOk := true, sendOutcome := .ok true }
        { promptText := some "hi", requestedModel := none, enhance := none,
          promptId := none }
        (by decide) (by decide) rfl rfl rfl).2.2.1 rfl

/-- C1 counterexample: a message that is received, decodes, validates,
and whose processing call resolves is nevertheless not acknowledged when
the cached channel handle is null at the ack point (the optional-chained
`channel?.ack` is skipped) — refuting "acknowledged exactly once". -/
theorem resolved_message_unacked_when_channel_null :
    handleMessage true
        (some { promptText := some "hello", requestedModel := none, enhance := none,
                promptId := none })
        (.ok "done") false =
      { processCalls :=
          [{ promptText := some "hello", requestedModel := none, enhance := none,
             promptId := none }],
        acks := 0, nacks := [] } := by
  decide

/-- C1 amended: a message that is received, decodes, and satisfies the
body-or-reference-id invariant is — provided the cached channel handle
is non-null at the settlement point — settled exactly once according to
the processing outcome: if the processing call resolves it is dispatched
once, acknowledged exactly once and never nacked; if the processing call
rejects it is dispatched once, nacked exactly once with requeue = false
and never acknowledged. -/
theorem valid_message_settled_once (p : PromptMessage) (r : String)
    (hv : hasBodyOrRef p = true) :
    handleMessage true (some p) (.ok r) true =
      { processCalls := [p], acks := 1, nacks := [] } ∧
    handleMessage true (some p) (.error ()) true =
      { processCalls := [p], acks := 0,
        nacks := [{ allUpTo := false, requeue := false }] } := by
  unfold handleMessage
  unfold hasBodyOrRef at hv
  simp only [Bool.or_eq_true] at hv
  rcases hv with h | h <;> exact ⟨by simp [h], by simp [h]⟩

/-- Witness for C1 at a concrete valid message. -/
theorem valid_message_settled_once_witness :
    hasBodyOrRef
        { promptText := some "hello", requestedModel := none, enhance := none,
          promptId := none }
      = true ∧
    (handleMessage true
        (some { promptText := some "hello", requestedModel := none, enhance := none,
                promptId := none })
        (.ok "done") true =
      { processCalls :=
          [{ promptText := some "hello", requestedModel := none, enhance := none,
             promptId := none }],
        acks := 1, nacks := [] } ∧
    handleMessage true
        (some { promptText := some "hello", requestedModel := none, enhance := none,
                promptId := none })
        (.error ()) true =
      { processCalls :=
          [{ promptText := some "hello", requestedModel := none, enhance := none,
             promptId := none }],
        acks := 0, nacks := [{ allUpTo := false, requeue := false }] }) :=
  ⟨by decide, valid_message_settled_once _ "done" (by decide)⟩

/-- C3 counterexample: a message whose body fails decoding is not nacked
when the cached channel handle is null at the nack point — it is neither
acknowledged nor discarded — refuting "the consumer discards the message
permanently". -/
theorem undecodable_message_not_discarded_when_channel_null :
    handleMessage true none (.ok "unused") false =
      { processCalls := [], acks := 0, nacks := [] } := by
  decide

/-- C3 amended: for a message that fails decoding, or that decodes but
has neither (truthy) body nor (truthy) reference id, the consumer —
provided the cached channel handle is non-null at the nack point —
discards it with exactly one `nack(msg, false, false)` (requeue = false)
and no ack; and whatever the channel state, the processing capability is
never invoked for it. -/
theorem invalid_message_discarded (parsed : Option PromptMessage)
    (po : Except Unit String)
    (hinv : parsed = none ∨ ∃ p, parsed = some p ∧ hasBodyOrRef p = false) :
    handleMessage true parsed po true =
      { processCalls := [], acks := 0,
        nacks := [{ allUpTo := false, requeue := false }] } ∧
    ∀ ch : Bool, (handleMessage true parsed po ch).processCalls = [] := by
  rcases hinv with h | ⟨p, hp, hv⟩
  · subst h
    exact ⟨rfl, fun ch => rfl⟩
  · subst hp
    unfold hasBodyOrRef at hv
    simp only [Bool.or_eq_false_iff] at hv
    constructor
    · simp [handleMessage, hv.1, hv.2]
    · intro ch
      simp [handleMessage, hv.1, hv.2]

/-- Witness for C3 at a decode failure. -/
theorem invalid_message_discarded_witness :
    ((none : Option PromptMessage) = none ∨
      ∃ p, (none : Option PromptMessage) = some p ∧ hasBodyOrRef p = false) ∧
    (handleMessage true none (.ok "unused") true =
      { processCalls := [], acks := 0,
        nacks := [{ allUpTo := false, requeue := false }] } ∧
    ∀ ch : Bool, (handleMessage true none (.ok "unused") ch).processCalls = []) :=
  ⟨Or.inl rfl, invalid_message_discarded none (.ok "unused") (Or.inl rfl)⟩

/-- C7: from the state right after a failed initial connection (one
retry timer pending, route mounted), the producer process can reach a
state with two connection attempts in flight at once: the 5-second timer
fires and starts an attempt, and while that attempt is still awaiting
`amqp.connect` (so the cached handles are still null), a /submit request
arrives and its fire-and-forget nudge starts a second attempt — the
nudge's guard reads only the cached connection handle and cannot detect
the in-flight attempt.  This contradicts the claimed contract that at
most one connection attempt is ever in flight per process. -/
theorem concurrent_connect_attempts_reachable :
    ∃ s : ProdSys, ProdReach prodInitAfterFailedConnect s ∧ 2 ≤ s.inflight := by
  refine ⟨{ conn := none, chan := false, inflight := 2, pendingTimers := 0 },
    ?_, by decide⟩
  have step1 :
      ProdStep prodInitAfterFailedConnect
        { conn := none, chan := false, inflight := 1, pendingTimers := 0 } :=
    ProdStep.timerFire prodInitAfterFailedConnect (by decide)
  have step2 :
      ProdStep { conn := none, chan := false, inflight := 1, pendingTimers := 0 }
        { conn := none, chan := false, inflight := 2, pendingTimers := 0 } :=
    ProdStep.submitNudge
      { conn := none, chan := false, inflight := 1, pendingTimers := 0 }
      (Or.inl rfl) (Or.inl rfl)
  exact ProdReach.tail _ _ _
    (ProdReach.tail _ _ _ (ProdReach.refl _) step1) step2

end UploadDocs
